import Mathlib

/-!
Shallow embedding of the incoming-share intent handling state machine of
src/cross.py (mobile-wormhole): the IntentHandler single-slot buffer, its
event classification, the single-send handling with its exception semantics,
and the destructive pop operation. Python exceptions are modelled with
Except over an explicit exception type; Python truthiness of the fields is
modelled exactly where the code tests it.
-/

namespace Cross

/-- Python exception values relevant to cross.py: the two classes caught by
handle_intent_action_send, the ValueError raised by pop, and all other
exceptions (platform-defined resolver failures and the like), tagged by a
string. -/
inductive Exc where
  | attributeError : Exc
  | assertionError : Exc
  | valueError : String → Exc
  | other : String → Exc
deriving DecidableEq, Repr

/-- Whether an exception belongs to the classes named by the except clause of
handle_intent_action_send: except (AttributeError, AssertionError). -/
def catchable : Exc → Bool
  | Exc.attributeError => true
  | Exc.assertionError => true
  | _ => false

/-- A reference handed to the resolver; none models a null reference, since
getItemAt(0).getUri() may return null and that null is passed to resolve. -/
abbrev Uri := Option String

/-- Model of android.content.ClipData as used by handle_intent_action_send:
the getItemCount() result and the combined getItemAt(0).getUri() access, which
may raise (for instance AttributeError when getItemAt(0) is null). -/
structure ClipData where
  itemCount : Nat
  getUri0 : Except Exc Uri
deriving Repr

/-- Model of an android.content.Intent as consumed by IntentHandler:
the getAction() result (none models null), and the getData() and getClipData()
accessors, which may raise; a raising accessor models the failing attribute
lookups on unexpected event objects. -/
structure AndroidIntent where
  action : Option String
  getData : Except Exc Uri
  getClipData : Except Exc (Option ClipData)
deriving Repr

/-- The IntentHandler buffer: the data and error instance fields. -/
structure IntentHandler where
  data : Option String
  error : Option String
deriving DecidableEq, Repr

/-- The buffer right after the assignments self.data = None and
self.error = None. -/
def emptyBuffer : IntentHandler := ⟨none, none⟩

/-- IntentHandler.__init__ on platforms other than android: only the two field
assignments run; the android-only branch (resolver construction, processing of
the launch intent, listener binding) is skipped. -/
def initNonAndroid : IntentHandler := emptyBuffer

/-- The resolver interface: AndroidUriResolver.resolve delegates to the plyer
AndroidFileChooser resolution routine, which lives outside this repository, so
theorems quantify over an arbitrary resolver that returns a path or raises. -/
abbrev Resolver := Uri → Except Exc String

/-- The fixed user-facing error message stored by handle_intent_action_send
(the three string literals of the source concatenated). -/
def errorMessage : String :=
  "Your share target cannot be recognised as a file. If it is indeed one, please try selecting it via the file chooser instead."

/-- The reference computed by the try block of handle_intent_action_send
before the resolve call: if getData() is truthy (non-null) use it, otherwise
assert the clip payload is non-null (AssertionError if not), assert its item
count is nonzero (AssertionError if not), and take the first item reference;
failures raised by the accessors propagate. The source calls getData() twice
(in the test and in the assignment); the accessor is modelled as pure, so the
single use below returns the same value. -/
def getUriFromIntent (intent : AndroidIntent) : Except Exc Uri :=
  match intent.getData with
  | Except.error e => Except.error e
  | Except.ok (some u) => Except.ok (some u)
  | Except.ok none =>
    match intent.getClipData with
    | Except.error e => Except.error e
    | Except.ok none => Except.error Exc.assertionError
    | Except.ok (some clipData) =>
      if clipData.itemCount = 0 then Except.error Exc.assertionError
      else clipData.getUri0

/-- The whole try block of handle_intent_action_send: extract the reference
and pass it to the resolver; an extraction failure propagates past the resolve
call. -/
def tryResolve (resolve : Resolver) (intent : AndroidIntent) :
    Except Exc String :=
  match getUriFromIntent intent with
  | Except.error e => Except.error e
  | Except.ok uri => resolve uri

/-- IntentHandler.handle_intent_action_send: reset both fields, run the try
block; on success store the resolved path, on an exception of a caught class
store the fixed error message, and on any other exception propagate it with
the buffer as the exception found it (both fields already reset). The prior
buffer state is discarded unconditionally, hence the ignored argument. -/
def handle_intent_action_send (resolve : Resolver) (intent : AndroidIntent)
    (_s : IntentHandler) : Except Exc Unit × IntentHandler :=
  match tryResolve resolve intent with
  | Except.ok path => (Except.ok (), { emptyBuffer with data := some path })
  | Except.error e =>
    if catchable e then
      (Except.ok (), { emptyBuffer with error := some errorMessage })
    else
      (Except.error e, emptyBuffer)

/-- IntentHandler.handle_intent_action_send_multiple: pass. -/
def handle_intent_action_send_multiple (_intent : AndroidIntent)
    (s : IntentHandler) : Except Exc Unit × IntentHandler :=
  (Except.ok (), s)

/-- IntentHandler.handle_android_intent: dispatch on getAction();
ACTION_SEND goes to handle_intent_action_send, ACTION_SEND_MULTIPLE to the
no-op multiple handler, and anything else falls into the silent pass branch. -/
def handle_android_intent (resolve : Resolver) (intent : AndroidIntent)
    (s : IntentHandler) : Except Exc Unit × IntentHandler :=
  if intent.action = some "android.intent.action.SEND" then
    handle_intent_action_send resolve intent s
  else if intent.action = some "android.intent.action.SEND_MULTIPLE" then
    handle_intent_action_send_multiple intent s
  else
    (Except.ok (), s)

/-- IntentHandler.pop: if self.error is truthy (a non-empty string), clear it
and raise ValueError carrying str of the stored message; otherwise clear
self.data and return its old value (possibly None). -/
def pop (s : IntentHandler) : Except Exc (Option String) × IntentHandler :=
  match s.error with
  | some e =>
    if e = "" then (Except.ok s.data, { s with data := none })
    else (Except.error (Exc.valueError e), { s with error := none })
  | none => (Except.ok s.data, { s with data := none })

/-- Deliver a sequence of intents to handle_android_intent with no intervening
pop, threading the buffer state; an exception escaping one callback does not
stop later deliveries, so only the states are threaded. -/
def runIntents (resolve : Resolver) (intents : List AndroidIntent)
    (s : IntentHandler) : IntentHandler :=
  intents.foldl (fun st i => (handle_android_intent resolve i st).2) s

/-- Iterate pop n times, keeping only the buffer state. -/
def popN : Nat → IntentHandler → IntentHandler
  | 0, s => s
  | n + 1, s => popN n (pop s).2

/-- Buffer states reachable from construction by any sequence of
handle_android_intent and pop calls; each event may use an arbitrary resolver
outcome, since resolution is external input and output. -/
inductive Reachable : IntentHandler → Prop where
  | init : Reachable emptyBuffer
  | handle (resolve : Resolver) (intent : AndroidIntent) {s : IntentHandler} :
      Reachable s → Reachable (handle_android_intent resolve intent s).2
  | consume {s : IntentHandler} : Reachable s → Reachable (pop s).2

/-- A sample resolver for concrete runs: every reference resolves to the same
local path. -/
def sampleResolver : Resolver := fun _ => Except.ok "/tmp/photo.jpg"

/-- A sample resolver for concrete runs that raises an exception outside the
caught classes, as a platform-defined resolution failure would. -/
def failingResolver : Resolver := fun _ => Except.error (Exc.other "resolver failure")

/-- A sample resolver for concrete runs that raises AttributeError, one of the
classes named by the except clause. -/
def attrFailingResolver : Resolver := fun _ => Except.error Exc.attributeError

/-- A sample single-send intent carrying a truthy direct data reference. -/
def sendIntentDirect : AndroidIntent :=
  ⟨some "android.intent.action.SEND", Except.ok (some "content-uri"),
    Except.ok none⟩

/-- A sample single-send intent with a null direct reference and a one-item
clip payload. -/
def sendIntentClip : AndroidIntent :=
  ⟨some "android.intent.action.SEND", Except.ok none,
    Except.ok (some ⟨1, Except.ok (some "clip-uri")⟩)⟩

/-- A sample single-send intent on which both lookups come back null, so both
extraction routes fail. -/
def sendIntentBare : AndroidIntent :=
  ⟨some "android.intent.action.SEND", Except.ok none, Except.ok none⟩

/-- A sample send-multiple intent. -/
def multiIntent : AndroidIntent :=
  ⟨some "android.intent.action.SEND_MULTIPLE", Except.ok none, Except.ok none⟩

/-- Invariant of reachable buffers: the two slots are never both set, and the
error slot holds nothing but the fixed message. -/
def WellFormed (s : IntentHandler) : Prop :=
  (s.data = none ∨ s.error = none) ∧
  (s.error = none ∨ s.error = some errorMessage)

lemma errorMessage_ne_empty : errorMessage ≠ "" := by decide

lemma handle_android_intent_snd_cases (resolve : Resolver)
    (intent : AndroidIntent) (s : IntentHandler) :
    (handle_android_intent resolve intent s).2 = s ∨
    (∃ p, (handle_android_intent resolve intent s).2 = ⟨some p, none⟩) ∨
    (handle_android_intent resolve intent s).2 = ⟨none, some errorMessage⟩ ∨
    (handle_android_intent resolve intent s).2 = emptyBuffer := by
  by_cases hA : intent.action = some "android.intent.action.SEND"
  · cases hT : tryResolve resolve intent with
    | ok p =>
      refine Or.inr (Or.inl ⟨p, ?_⟩)
      simp [handle_android_intent, hA, handle_intent_action_send, hT, emptyBuffer]
    | error e =>
      by_cases hc : catchable e
      · refine Or.inr (Or.inr (Or.inl ?_))
        simp [handle_android_intent, hA, handle_intent_action_send, hT, hc,
          emptyBuffer]
      · refine Or.inr (Or.inr (Or.inr ?_))
        simp [handle_android_intent, hA, handle_intent_action_send, hT, hc]
  · by_cases hM : intent.action = some "android.intent.action.SEND_MULTIPLE"
    · exact Or.inl (by simp [handle_android_intent, hA, hM,
        handle_intent_action_send_multiple])
    · exact Or.inl (by simp [handle_android_intent, hA, hM])

lemma pop_snd_wellFormed {s : IntentHandler} (h : WellFormed s) :
    WellFormed (pop s).2 := by
  obtain ⟨d, e⟩ := s
  cases e with
  | none => exact ⟨Or.inl rfl, Or.inl rfl⟩
  | some e =>
    by_cases he : e = ""
    · constructor
      · exact Or.inl (by simp [pop, he])
      · simpa [pop, he] using h.2
    · exact ⟨Or.inr (by simp [pop, he]), Or.inl (by simp [pop, he])⟩

lemma wellFormed_of_reachable {s : IntentHandler} (h : Reachable s) :
    WellFormed s := by
  induction h with
  | init => exact ⟨Or.inl rfl, Or.inl rfl⟩
  | handle resolve intent hs ih =>
    rcases handle_android_intent_snd_cases resolve intent _ with
      h1 | ⟨p, h2⟩ | h3 | h4
    · rw [h1]; exact ih
    · rw [h2]; exact ⟨Or.inr rfl, Or.inl rfl⟩
    · rw [h3]; exact ⟨Or.inl rfl, Or.inr rfl⟩
    · rw [h4]; exact ⟨Or.inl rfl, Or.inl rfl⟩
  | consume hs ih => exact pop_snd_wellFormed ih

/-- C1: in every buffer state reachable from construction (both slots empty)
by any sequence of handle_android_intent and pop calls, at most one of the
pending path and the pending error is set: Ready and Failed are mutually
exclusive. -/
theorem claim_C1_ready_failed_exclusive {s : IntentHandler}
    (h : Reachable s) : s.data = none ∨ s.error = none :=
  (wellFormed_of_reachable h).1

/-- C1 witness: exclusivity at the reachable state obtained by delivering one
successfully resolving single-send intent to a fresh handler. -/
theorem claim_C1_witness :
    (handle_android_intent sampleResolver sendIntentDirect emptyBuffer).2.data
      = none ∨
    (handle_android_intent sampleResolver sendIntentDirect emptyBuffer).2.error
      = none :=
  claim_C1_ready_failed_exclusive
    (Reachable.handle sampleResolver sendIntentDirect Reachable.init)

/-- C2: pop on every reachable buffer state: a pending error is cleared and
raised as a ValueError carrying exactly the stored message; otherwise a
pending path is cleared and returned; otherwise None is returned without
raising, the buffer staying as it was (both slots already unset). -/
theorem claim_C2_pop_cases {s : IntentHandler} (h : Reachable s) :
    (∀ e, s.error = some e →
      pop s = (Except.error (Exc.valueError e), { s with error := none })) ∧
    (s.error = none → ∀ p, s.data = some p →
      pop s = (Except.ok (some p), { s with data := none })) ∧
    (s.error = none → s.data = none → pop s = (Except.ok none, s)) := by
  have hw := wellFormed_of_reachable h
  obtain ⟨d, e⟩ := s
  refine ⟨?_, ?_, ?_⟩
  · rintro e' he'
    cases he'
    have hmsg : e' = errorMessage := by
      rcases hw.2 with h2 | h2
      · exact absurd h2 (by simp)
      · simpa using h2
    have hne : e' ≠ "" := hmsg ▸ errorMessage_ne_empty
    simp [pop, hne]
  · rintro he p hd
    cases he
    cases hd
    simp [pop]
  · rintro he hd
    cases he
    cases hd
    simp [pop]

/-- C2 witness: the three branches at concrete reachable states: the Failed
state left by an unrecognisable share, the Ready state left by a resolved
share, and the Empty state of a fresh handler. -/
theorem claim_C2_witness :
    pop ⟨none, some errorMessage⟩ =
      (Except.error (Exc.valueError errorMessage),
        ⟨(none : Option String), none⟩) ∧
    pop ⟨some "/tmp/photo.jpg", none⟩ =
      (Except.ok (some "/tmp/photo.jpg"), emptyBuffer) ∧
    pop emptyBuffer = (Except.ok none, emptyBuffer) := by
  have hfail :=
    (claim_C2_pop_cases
      (Reachable.handle sampleResolver sendIntentBare Reachable.init)).1
  have hready :=
    (claim_C2_pop_cases
      (Reachable.handle sampleResolver sendIntentDirect Reachable.init)).2.1
  have hempty := (claim_C2_pop_cases Reachable.init).2.2
  refine ⟨?_, ?_, ?_⟩
  · simpa using hfail errorMessage rfl
  · simpa using hready rfl "/tmp/photo.jpg" rfl
  · simpa [emptyBuffer] using hempty rfl rfl

/-- C3 counterexample: after the sequence [single send, send multiple] the
buffer still holds the first event's path, while after [send multiple] alone
it is empty: the buffer state after a sequence of events is not determined
solely by the last event, because a SEND_MULTIPLE event is a pass and does not
overwrite the previously pending outcome. -/
theorem claim_C3_counterexample :
    runIntents sampleResolver [sendIntentDirect, multiIntent] emptyBuffer ≠
    runIntents sampleResolver [multiIntent] emptyBuffer := by
  decide

lemma handle_intent_action_send_state_irrelevant (resolve : Resolver)
    (intent : AndroidIntent) (s t : IntentHandler) :
    handle_intent_action_send resolve intent s =
    handle_intent_action_send resolve intent t := rfl

/-- C3 amended: last-write-wins holds whenever the last delivered event is a
single-send event: the buffer state after the whole sequence equals the state
after that event alone from a fresh handler, whatever the earlier events and
the starting state were, because handle_intent_action_send resets both slots
before doing anything else. Send-multiple and unrecognized events, however,
leave the previously pending outcome in place rather than overwriting it. -/
theorem claim_C3_last_write_wins (resolve : Resolver)
    (es : List AndroidIntent) (intent : AndroidIntent) (s : IntentHandler)
    (h : intent.action = some "android.intent.action.SEND") :
    runIntents resolve (es ++ [intent]) s =
    runIntents resolve [intent] emptyBuffer := by
  simp only [runIntents, List.foldl_append, List.foldl_cons, List.foldl_nil]
  simp only [handle_android_intent, h, if_pos]
  exact congrArg Prod.snd
    (handle_intent_action_send_state_irrelevant resolve intent _ _)

/-- C3 witness: a concrete prefix, a concrete trailing single-send event and a
concrete dirty starting state for the amended statement. -/
theorem claim_C3_witness :
    runIntents sampleResolver ([multiIntent] ++ [sendIntentDirect])
      ⟨some "/old/path", none⟩ =
    runIntents sampleResolver [sendIntentDirect] emptyBuffer :=
  claim_C3_last_write_wins sampleResolver [multiIntent] sendIntentDirect
    ⟨some "/old/path", none⟩ rfl

/-- C4: whenever reference extraction fails with one of the caught exception
classes (failed attribute lookup or failed payload assertion), the handler
stores no path and stores exactly the fixed message, and the next pop raises a
ValueError carrying exactly that text, emptying the buffer. -/
theorem claim_C4_fixed_error (resolve : Resolver) (intent : AndroidIntent)
    (s : IntentHandler) (e : Exc)
    (hext : getUriFromIntent intent = Except.error e)
    (hc : catchable e = true) :
    handle_intent_action_send resolve intent s =
      (Except.ok (), ⟨none, some errorMessage⟩) ∧
    pop (handle_intent_action_send resolve intent s).2 =
      (Except.error (Exc.valueError errorMessage), emptyBuffer) := by
  have htry : tryResolve resolve intent = Except.error e := by
    simp [tryResolve, hext]
  have hh : handle_intent_action_send resolve intent s =
      (Except.ok (), ⟨none, some errorMessage⟩) := by
    simp [handle_intent_action_send, htry, hc, emptyBuffer]
  refine ⟨hh, ?_⟩
  rw [hh]
  simp [pop, emptyBuffer, errorMessage_ne_empty]

/-- C4 witness: a single-send intent whose getData lookup raises
AttributeError, run against the sample resolver from an arbitrary dirty
state. -/
theorem claim_C4_witness :
    handle_intent_action_send sampleResolver
      ⟨some "android.intent.action.SEND", Except.error Exc.attributeError,
        Except.ok none⟩ ⟨some "/old/path", none⟩ =
      (Except.ok (), ⟨none, some errorMessage⟩) ∧
    pop (handle_intent_action_send sampleResolver
      ⟨some "android.intent.action.SEND", Except.error Exc.attributeError,
        Except.ok none⟩ ⟨some "/old/path", none⟩).2 =
      (Except.error (Exc.valueError errorMessage), emptyBuffer) :=
  claim_C4_fixed_error sampleResolver
    ⟨some "android.intent.action.SEND", Except.error Exc.attributeError,
      Except.ok none⟩ ⟨some "/old/path", none⟩ Exc.attributeError rfl rfl

/-- C5 counterexample: with an intent whose direct reference extraction
succeeds and a resolver that raises AttributeError, the resolver failure is
caught inside handle_intent_action_send and converted into the stored fixed
message instead of propagating: the except clause selects by exception class,
not by where in the try block the exception was raised, so not only
event-shape failures are caught there. -/
theorem claim_C5_counterexample :
    getUriFromIntent sendIntentDirect = Except.ok (some "content-uri") ∧
    handle_intent_action_send attrFailingResolver sendIntentDirect
      emptyBuffer = (Except.ok (), ⟨none, some errorMessage⟩) :=
  ⟨rfl, rfl⟩

/-- C5 amended: when reference extraction succeeds and the resolver call
fails, the failure propagates uncaught to the caller exactly when its class is
outside the caught pair (AttributeError, AssertionError); a resolver failure
of a caught class is handled like an event-shape failure and stored as the
fixed message. -/
theorem claim_C5_resolver_failure (resolve : Resolver)
    (intent : AndroidIntent) (s : IntentHandler) (u : Uri) (e : Exc)
    (hext : getUriFromIntent intent = Except.ok u)
    (hres : resolve u = Except.error e) :
    (catchable e = false →
      handle_intent_action_send resolve intent s =
        (Except.error e, emptyBuffer)) ∧
    (catchable e = true →
      handle_intent_action_send resolve intent s =
        (Except.ok (), ⟨none, some errorMessage⟩)) := by
  have htry : tryResolve resolve intent = Except.error e := by
    simp [tryResolve, hext, hres]
  constructor
  · intro hc
    simp [handle_intent_action_send, htry, hc]
  · intro hc
    simp [handle_intent_action_send, htry, hc, emptyBuffer]

/-- C5 witness: a resolver raising an exception outside the caught classes on
an intent with a truthy direct reference: the exception propagates and the
reset buffer is left behind. -/
theorem claim_C5_witness :
    (catchable (Exc.other "resolver failure") = false →
      handle_intent_action_send failingResolver sendIntentDirect
        ⟨some "/old/path", none⟩ =
        (Except.error (Exc.other "resolver failure"), emptyBuffer)) ∧
    (catchable (Exc.other "resolver failure") = true →
      handle_intent_action_send failingResolver sendIntentDirect
        ⟨some "/old/path", none⟩ =
        (Except.ok (), ⟨none, some errorMessage⟩)) :=
  claim_C5_resolver_failure failingResolver sendIntentDirect
    ⟨some "/old/path", none⟩ (some "content-uri") (Exc.other "resolver failure")
    rfl rfl

/-- C6: consumption is destructive on every reachable state: after pop both
slots are unset, and an immediately following pop with no intervening event
returns None without raising. -/
theorem claim_C6_pop_destructive {s : IntentHandler} (h : Reachable s) :
    (pop s).2 = emptyBuffer ∧
    pop (pop s).2 = (Except.ok none, emptyBuffer) := by
  have hw := wellFormed_of_reachable h
  have h2 : (pop s).2 = emptyBuffer := by
    rcases hw.2 with he | he
    · simp [pop, he, emptyBuffer]
    · have hd : s.data = none := by
        rcases hw.1 with hd | hd
        · exact hd
        · rw [he] at hd
          exact absurd hd (by simp)
      simp [pop, he, errorMessage_ne_empty, emptyBuffer, hd]
  exact ⟨h2, by rw [h2]; rfl⟩

/-- C6 witness: destructive consumption at the reachable Failed state left by
a share whose extraction fails on both routes. -/
theorem claim_C6_witness :
    (pop (handle_android_intent sampleResolver sendIntentBare
        emptyBuffer).2).2 = emptyBuffer ∧
    pop (pop (handle_android_intent sampleResolver sendIntentBare
        emptyBuffer).2).2 = (Except.ok none, emptyBuffer) :=
  claim_C6_pop_destructive
    (Reachable.handle sampleResolver sendIntentBare Reachable.init)

/-- C7: with a truthy direct data reference, the reference handed to the
resolver is exactly that reference; with a null direct reference and a
non-null clip payload of nonzero item count, it is the first item reference;
and whenever the resolver succeeds, its result is stored as the pending path
with no pending error (the Ready state). -/
theorem claim_C7_resolve_argument (resolve : Resolver)
    (intent : AndroidIntent) (s : IntentHandler) :
    (∀ u, intent.getData = Except.ok (some u) →
      getUriFromIntent intent = Except.ok (some u)) ∧
    (∀ cd, intent.getData = Except.ok none →
      intent.getClipData = Except.ok (some cd) → cd.itemCount ≠ 0 →
      getUriFromIntent intent = cd.getUri0) ∧
    (∀ u p, getUriFromIntent intent = Except.ok u →
      resolve u = Except.ok p →
      handle_intent_action_send resolve intent s =
        (Except.ok (), ⟨some p, none⟩)) := by
  refine ⟨?_, ?_, ?_⟩
  · intro u hd
    simp [getUriFromIntent, hd]
  · intro cd hd hcd hcount
    simp [getUriFromIntent, hd, hcd, hcount]
  · intro u p hext hres
    have htry : tryResolve resolve intent = Except.ok p := by
      simp [tryResolve, hext, hres]
    simp [handle_intent_action_send, htry, emptyBuffer]

/-- C7 witness: the direct-reference route, the clip-payload route and the
storing of the resolved path, at concrete intents and the sample resolver. -/
theorem claim_C7_witness :
    getUriFromIntent sendIntentDirect = Except.ok (some "content-uri") ∧
    getUriFromIntent sendIntentClip = Except.ok (some "clip-uri") ∧
    handle_intent_action_send sampleResolver sendIntentDirect
      ⟨some "/old/path", none⟩ =
      (Except.ok (), ⟨some "/tmp/photo.jpg", none⟩) := by
  refine ⟨?_, ?_, ?_⟩
  · exact (claim_C7_resolve_argument sampleResolver sendIntentDirect
      emptyBuffer).1 "content-uri" rfl
  · exact (claim_C7_resolve_argument sampleResolver sendIntentClip
      emptyBuffer).2.1 ⟨1, Except.ok (some "clip-uri")⟩ rfl rfl (by decide)
  · exact (claim_C7_resolve_argument sampleResolver sendIntentDirect
      ⟨some "/old/path", none⟩).2.2 (some "content-uri") "/tmp/photo.jpg"
      rfl rfl

/-- C8: every event whose action is not the single-send one — in particular
every send-multiple event and every event of unrecognized action — leaves the
buffer exactly unchanged and returns normally, and this holds for every
resolver, so the resolver is never consulted. -/
theorem claim_C8_multiple_and_unknown_no_op (resolve : Resolver)
    (intent : AndroidIntent) (s : IntentHandler)
    (h : intent.action ≠ some "android.intent.action.SEND") :
    handle_android_intent resolve intent s = (Except.ok (), s) := by
  by_cases hM : intent.action = some "android.intent.action.SEND_MULTIPLE" <;>
    simp [handle_android_intent, h, hM, handle_intent_action_send_multiple]

/-- C8 witness: a send-multiple event delivered on a buffer holding a pending
path leaves it untouched, even under a resolver that would fail. -/
theorem claim_C8_witness :
    handle_android_intent failingResolver multiIntent
      ⟨some "/old/path", none⟩ =
      (Except.ok (), ⟨some "/old/path", none⟩) :=
  claim_C8_multiple_and_unknown_no_op failingResolver multiIntent
    ⟨some "/old/path", none⟩ (by decide)

/-- C9: on platforms other than the native one, construction yields the empty
buffer, and after any number of pop calls a further pop still returns None
without raising and leaves the buffer empty. -/
theorem claim_C9_non_android_empty (n : Nat) :
    initNonAndroid = emptyBuffer ∧
    pop (popN n initNonAndroid) = (Except.ok none, emptyBuffer) := by
  have hstay : popN n initNonAndroid = emptyBuffer := by
    induction n with
    | zero => rfl
    | succ k ih =>
      show popN k (pop initNonAndroid).2 = emptyBuffer
      exact ih
  exact ⟨rfl, by rw [hstay]; rfl⟩

/-- C10: handle_intent_action_send resets both slots before extraction and
resolution, so whenever it ends in an uncaught exception the buffer is left
empty whatever state it started from (any previously pending outcome is
lost), the whole outcome never depends on the prior state, and the next pop
returns None without raising. -/
theorem claim_C10_reset_before_resolve (resolve : Resolver)
    (intent : AndroidIntent) (s : IntentHandler) (e : Exc)
    (h : (handle_intent_action_send resolve intent s).1 = Except.error e) :
    (handle_intent_action_send resolve intent s).2 = emptyBuffer ∧
    pop (handle_intent_action_send resolve intent s).2 =
      (Except.ok none, emptyBuffer) ∧
    (∀ t, handle_intent_action_send resolve intent s =
      handle_intent_action_send resolve intent t) := by
  have h2 : (handle_intent_action_send resolve intent s).2 = emptyBuffer := by
    cases hT : tryResolve resolve intent with
    | ok p => simp [handle_intent_action_send, hT] at h
    | error e' =>
      by_cases hc : catchable e'
      · simp [handle_intent_action_send, hT, hc] at h
      · simp [handle_intent_action_send, hT, hc]
  exact ⟨h2, by rw [h2]; rfl, fun t => rfl⟩

/-- C10 witness: a resolver raising an uncaught exception on a resolvable
intent, started from a buffer holding a pending path: the buffer comes out
empty and the next pop returns None. -/
theorem claim_C10_witness :
    (handle_intent_action_send failingResolver sendIntentDirect
      ⟨some "/old/path", none⟩).2 = emptyBuffer ∧
    pop (handle_intent_action_send failingResolver sendIntentDirect
      ⟨some "/old/path", none⟩).2 = (Except.ok none, emptyBuffer) ∧
    (∀ t, handle_intent_action_send failingResolver sendIntentDirect
      ⟨some "/old/path", none⟩ =
      handle_intent_action_send failingResolver sendIntentDirect t) :=
  claim_C10_reset_before_resolve failingResolver sendIntentDirect
    ⟨some "/old/path", none⟩ (Exc.other "resolver failure") rfl

end Cross
